import Mathlib

/-!
Verification of the window-message dispatch and cross-thread marshaling core
of the `winsafe` GUI layer (`src/gui/base.rs`), as a shallow embedding.

Conventions of the embedding:
* `HWND` is a `Nat`; the NULL sentinel is `0` (`HWND::NULL`).
* Message identifiers (`co::WM`) are `Nat`s; `WM::APP` is `0x8000` as in the
  Windows headers, so `Base::WM_UI_THREAD = WM::APP + 0x3fff = 0xbfff`.
* A heap-owned cross-thread payload (`Box<Box<dyn FnOnce() -> AnyResult<()>>>`)
  is modelled by the value the callback returns when invoked
  (`Payload := Except Err Unit`); the heap is an association list from raw
  pointers to payloads.  `Box::into_raw` inserts, `Box::from_raw` removes.
* Calls into the windowing substrate (SendMessage, TranslateAccelerator,
  IsDialogMessage, TranslateMessage, DispatchMessage, thread spawning,
  payload invocation) are recorded as an `Effect` trace; their outcomes,
  where the control flow depends on them, are supplied by an `Env` of oracles.
* Errors (`AnyResult`'s boxed error, `MsgError`) are opaque `Err := Nat`.
-/

/-- Opaque error values: stands for the boxed error of `AnyResult` and for
`MsgError`. -/
abbrev Err := Nat

/-- Window handles; `0` is the `HWND::NULL` sentinel. -/
abbrev HWND := Nat

/-- The `HWND::NULL` sentinel ("window not yet created"). -/
def HWND.NULL : HWND := 0

/-- `co::WM::APP`, the Windows `WM_APP` constant. -/
def WM_APP : Nat := 0x8000

/-- `co::WM::SIZE`. -/
def WM_SIZE : Nat := 0x0005

/-- `Base::WM_UI_THREAD = co::WM(co::WM::APP.0 + 0x3fff)`: the one reserved
message id owned by the cross-thread dispatcher. -/
def WM_UI_THREAD : Nat := WM_APP + 0x3fff

/-- A message as the `WndMsg` struct carries it: id plus the two parameter
fields (`wparam`, `lparam`), both modelled as `Nat` (pointers included). -/
structure WndMsg where
  msg_id : Nat
  wparam : Nat
  lparam : Nat
deriving DecidableEq, Repr

/-- A retrieved queue message (the `MSG` struct): target window plus the
`WndMsg` fields the loop looks at. -/
structure MSG where
  hwnd : HWND
  msg_id : Nat
  wparam : Nat
  lparam : Nat
deriving DecidableEq, Repr

/-- A cross-thread payload, identified with the result its single invocation
returns (`FnOnce() -> AnyResult<()>`). -/
abbrev Payload := Except Err Unit

/-- The process heap restricted to marshaled payloads: raw pointer ↦ payload. -/
abbrev Heap := List (Nat × Payload)

/-- Heap lookup at a raw pointer. -/
def lookupHeap (h : Heap) (p : Nat) : Option Payload :=
  (h.find? (fun e => e.1 == p)).map (fun e => e.2)

/-- `Box::into_raw`: the payload enters the heap at pointer `p`. -/
def insertHeap (h : Heap) (p : Nat) (v : Payload) : Heap :=
  (p, v) :: h

/-- `Box::from_raw`: ownership leaves the heap; the entry at `p` is gone. -/
def removeHeap (h : Heap) (p : Nat) : Heap :=
  h.filter (fun e => !(e.1 == p))

/-- Observable calls into the windowing substrate and payload lifecycle
events, in the order the code performs them. -/
inductive Effect
  /-- `Box::from_raw(ptr)`: the receiver reclaims the payload at `ptr`. -/
  | fromRaw (ptr : Nat)
  /-- The reclaimed payload at `ptr` is invoked (`pack()`). -/
  | invokePayload (ptr : Nat)
  /-- `post_quit_error`: a quit is posted after recording a fatal error. -/
  | postQuit
  /-- The `wm_size` privileged handler calls `layout_arranger.rearrange(&p)`. -/
  | rearrange (p : WndMsg)
  /-- `hwnd.SendMessage(m)`: the synchronous send primitive.  Per the
  substrate contract it returns only after the window procedure of the
  target's thread has processed `m`. -/
  | send (target : HWND) (m : WndMsg)
  /-- `std::thread::spawn`: a new worker thread is started; the spawning call
  returns at once. -/
  | spawnThread
  /-- The worker thread body invokes the user-supplied callback `func()`. -/
  | runCallback
  /-- A privileged handler other than the two installed by `Base::new`. -/
  | otherHandler (k : Nat)
  /-- `hwnd_top_level.TranslateAccelerator(haccel, &mut msg)` is called. -/
  | translateAccel (root : HWND) (haccel : Nat)
  /-- `hwnd_top_level.IsDialogMessage(&mut msg)` is called. -/
  | isDialogMsg (root : HWND)
  /-- `TranslateMessage(&msg)` is called. -/
  | translateMsg
  /-- `DispatchMessage(&msg)` is called. -/
  | dispatchMsg
deriving DecidableEq, Repr

/-- Whether performing this substrate call blocks the caller until the
receiving thread has processed the message: `SendMessage` does (it is the
synchronous primitive; an asynchronous `PostMessage` would not, but the code
never uses one on this path). -/
def Effect.blocksUntilHandled : Effect → Bool
  | .send _ _ => true
  | _ => false

/-- UI-thread-global state threaded through handlers: the payload heap and the
process-wide fatal-error slot `QUIT_ERROR`. -/
structure St where
  heap : Heap
  quitError : Option Err
deriving Repr

/-- Modelled from the spec: `post_quit_error` (in `gui::privs`, outside the
provided sources) records a handler failure into the fatal-error slot —
remembering the first such error and discarding later ones arriving before the
quit is retrieved — and posts a quit. -/
def post_quit_error (s : St) (e : Err) : St × List Effect :=
  ({ s with quitError := some (s.quitError.getD e) }, [Effect.postQuit])

/-- The privileged handler `Base::default_message_handlers` installs for
`WM_UI_THREAD` (the closure at `base.rs:174-181`): if the first parameter
field equals `WM_UI_THREAD` (self-tag check), reclaim the payload from the raw
pointer in the second parameter field (`Box::from_raw`), invoke it, and route
an error result through `post_quit_error`; otherwise do nothing.  The closure
itself always returns `Ok(None)`.  A tag-matching message whose pointer is not
a live payload is undefined behaviour in the source; the embedding leaves the
state unchanged there, and every theorem below restricts to live pointers. -/
def handle_ui_thread (p : WndMsg) (s : St) :
    St × List Effect × Except Err (Option Int) :=
  if p.wparam == WM_UI_THREAD then
    match lookupHeap s.heap p.lparam with
    | some payload =>
      let s1 : St := { s with heap := removeHeap s.heap p.lparam }
      match payload with
      | .ok _ =>
        (s1, [Effect.fromRaw p.lparam, Effect.invokePayload p.lparam], .ok none)
      | .error e =>
        let (s2, fx) := post_quit_error s1 e
        (s2, [Effect.fromRaw p.lparam, Effect.invokePayload p.lparam] ++ fx,
          .ok none)
    | none => (s, [], .ok none)
  else (s, [], .ok none)

/-- `Base::run_ui_thread` (`base.rs:139-162`): box the callback
(`Box::into_raw` at fresh pointer `ptr`), resolve `GetAncestor(GA::ROOTOWNER)`
of the window (the oracle's answer is passed in as `rootOwner`), and if it
resolves, `SendMessage` the reserved id with (self-tag, pointer) to the root;
if it does not resolve, nothing further happens (the payload stays boxed). -/
def run_ui_thread (rootOwner : Option HWND) (ptr : Nat) (payload : Payload)
    (heap : Heap) : Heap × List Effect :=
  let heap1 := insertHeap heap ptr payload
  match rootOwner with
  | some root =>
    (heap1, [Effect.send root ⟨WM_UI_THREAD, WM_UI_THREAD, ptr⟩])
  | none => (heap1, [])

/-- `Base::spawn_new_thread` (`base.rs:119-137`) as observed by the calling
thread: it only starts a worker thread and returns. -/
def spawn_new_thread_caller : List Effect := [Effect.spawnThread]

/-- The body `Base::spawn_new_thread` runs on the spawned worker thread:
invoke `func()`; on `Ok` nothing more happens; on `Err(err)` box a payload
that re-raises `err`, resolve `GetAncestor(GA::ROOTOWNER)` of the captured
window, and if it resolves, `SendMessage` the reserved id with (self-tag,
pointer) to it. -/
def spawn_worker_body (rootOwner : Option HWND) (funcResult : Except Err Unit)
    (ptr : Nat) (heap : Heap) : Heap × List Effect :=
  match funcResult with
  | .ok _ => (heap, [Effect.runCallback])
  | .error e =>
    let heap1 := insertHeap heap ptr (.error e)
    match rootOwner with
    | some root =>
      (heap1, [Effect.runCallback,
        Effect.send root ⟨WM_UI_THREAD, WM_UI_THREAD, ptr⟩])
    | none => (heap1, [Effect.runCallback])

/-- A user message handler: what the closure returns when applied
(`AnyResult<Option<isize>>`). -/
abbrev UserHandler := WndMsg → Except Err (Option Int)

/-- Modelled from the spec: the user-facing table of `WindowEventsAll` (in
`gui::events`, outside the provided sources) is an id → handler registry with
OVERWRITE policy — a new registration on an id replaces any prior one, and at
most the single current handler fires.  The registry is an association list
whose head is the most recent registration and whose lookup takes the first
hit. -/
abbrev UserTable := List (Nat × UserHandler)

/-- Registering a user handler for `id`: the new entry shadows every earlier
entry for the same id (OVERWRITE). -/
def register_overwrite (t : UserTable) (id : Nat) (h : UserHandler) :
    UserTable :=
  (id, h) :: t

/-- The handler currently registered for `id`, if any: the most recent one. -/
def lookupTable (t : UserTable) (id : Nat) : Option UserHandler :=
  (t.find? (fun e => e.1 == id)).map (fun e => e.2)

/-- Modelled from the spec: the result `process_one_message` reports —
either "unhandled" or the handler's returned value. -/
inductive ProcessResult
  | notHandled
  | handled (ret : Option Int)

/-- Modelled from the spec: `WindowEventsAll::process_one_message` (OVERWRITE
dispatch, called by `Base::process_user_message`, `base.rs:85-89`): invoke the
single registered handler for the message's id if present, else report
"unhandled". -/
def process_one_message (t : UserTable) (m : WndMsg) :
    Except Err ProcessResult :=
  match lookupTable t m.msg_id with
  | some h => (h m).map ProcessResult.handled
  | none => .ok ProcessResult.notHandled

/-- A privileged handler, identified semantically: the two closures installed
by `Base::default_message_handlers`, or any other closure registered through
`privileged_on`. -/
inductive PrivHandler
  /-- The `wm_size` closure (`base.rs:169-172`): calls
  `layout_arranger.rearrange(&p)` on the cloned arranger. -/
  | sizeRearrange
  /-- The `WM_UI_THREAD` closure (`base.rs:174-181`): decode and run a
  marshaled payload; see `handle_ui_thread`. -/
  | uiThreadDecode
  /-- Any other privileged closure (registered by controls etc.). -/
  | other (k : Nat)
deriving DecidableEq, Repr

/-- Running one privileged handler on a message.  `rearrangeResult` is the
oracle for what `LayoutArranger::rearrange` (outside the provided sources)
returns; the `wm_size` closure propagates its error (`?`) and otherwise
returns `Ok(())`, rendered as `none`. -/
def runPrivHandler (rearrangeResult : WndMsg → Except Err Unit) :
    PrivHandler → WndMsg → St → St × List Effect × Except Err (Option Int)
  | .sizeRearrange, p, s =>
    (s, [Effect.rearrange p], (rearrangeResult p).map (fun _ => none))
  | .uiThreadDecode, p, s => handle_ui_thread p s
  | .other k, _p, s => (s, [Effect.otherHandler k], .ok none)

/-- Modelled from the spec: the privileged table of `WindowEventsAll` has
ACCUMULATE policy — handlers are kept in registration order and all fire.
Registration appends. -/
abbrev PrivTable := List (Nat × PrivHandler)

/-- Registering a privileged handler (ACCUMULATE: appended, never replaces). -/
def register_accumulate (t : PrivTable) (id : Nat) (h : PrivHandler) :
    PrivTable :=
  t ++ [(id, h)]

/-- The per-window state `gui::Base` (`base.rs:15-22`). The weak parent
back-reference is kept as an optional identifier. -/
structure Base where
  hwnd : HWND
  is_dialog : Bool
  parent_ptr : Option Nat
  user_events : UserTable
  privileged_events : PrivTable
  layout_arranger : List (HWND × Nat × Nat)

/-- `Base::default_message_handlers` (`base.rs:164-182`): install the
`wm_size`/rearrange closure and the `WM_UI_THREAD` decode closure into the
privileged table, in that order. -/
def default_message_handlers (t : PrivTable) : PrivTable :=
  register_accumulate
    (register_accumulate t WM_SIZE PrivHandler.sizeRearrange)
    WM_UI_THREAD PrivHandler.uiThreadDecode

/-- `Base::new` (`base.rs:34-47`): fresh state with `hwnd = HWND::NULL`, empty
user table, and the two default privileged handlers already installed. -/
def Base.new (is_dialog : Bool) (parent : Option Nat) : Base :=
  { hwnd := HWND.NULL
    is_dialog := is_dialog
    parent_ptr := parent
    user_events := []
    privileged_events := default_message_handlers []
    layout_arranger := [] }

/-- The panic raised on registration after creation ("Cannot add event after
window creation."), modelled as an error value. -/
inductive GuiPanic
  | useAfterCreation
deriving DecidableEq, Repr

/-- `Base::on` (`base.rs:76-82`): accessor to the user table; panics (fails
fast) if the window already exists (`hwnd != HWND::NULL`). -/
def Base.on (b : Base) : Except GuiPanic UserTable :=
  if b.hwnd == HWND.NULL then .ok b.user_events
  else .error GuiPanic.useAfterCreation

/-- `Base::privileged_on` (`base.rs:91-97`): accessor to the privileged table;
panics (fails fast) if the window already exists. -/
def Base.privileged_on (b : Base) : Except GuiPanic PrivTable :=
  if b.hwnd == HWND.NULL then .ok b.privileged_events
  else .error GuiPanic.useAfterCreation

/-- Registering a user handler through `Base::on`: the guard runs first; only
when it passes does the table change. -/
def register_user (b : Base) (id : Nat) (h : UserHandler) :
    Except GuiPanic Base :=
  match b.on with
  | .error e => .error e
  | .ok t => .ok { b with user_events := register_overwrite t id h }

/-- Registering a privileged handler through `Base::privileged_on`: the guard
runs first; only when it passes does the table change. -/
def register_privileged (b : Base) (id : Nat) (h : PrivHandler) :
    Except GuiPanic Base :=
  match b.privileged_on with
  | .error e => .error e
  | .ok t => .ok { b with privileged_events := register_accumulate t id h }

/-- `Base::process_user_message` (`base.rs:85-89`). -/
def Base.process_user_message (b : Base) (m : WndMsg) :
    Except Err ProcessResult :=
  process_one_message b.user_events m

/-- Oracles for the substrate calls whose results steer `run_main_loop`
(`base.rs:184-221`).  `ancestorRoot` is `GetAncestor(GA::ROOT)`;
`translateAccel root haccel m` is whether
`root.TranslateAccelerator(haccel, &mut m)` returned `Ok` (message consumed);
`dialogNav root m` is what `root.IsDialogMessage(&mut m)` returned. -/
structure Env where
  ancestorRoot : HWND → Option HWND
  translateAccel : HWND → Nat → MSG → Bool
  dialogNav : HWND → MSG → Bool

/-- The root ancestor the loop computes for a retrieved message: the
`GA::ROOT` ancestor, or the message's own window when it has none
(`base.rs:203-204`). -/
def rootOf (env : Env) (m : MSG) : HWND :=
  (env.ancestorRoot m.hwnd).getD m.hwnd

/-- One iteration of `run_main_loop` on a retrieved non-quit message
(`base.rs:201-219`), as the ordered trace of substrate calls it performs:
when an accelerator table was supplied, try `TranslateAccelerator` against the
root and stop if it consumes (`continue`); otherwise try `IsDialogMessage`
against the root and stop if it consumes; otherwise `TranslateMessage` then
`DispatchMessage`. -/
def process_message (env : Env) (haccel : Option Nat) (m : MSG) :
    List Effect :=
  let root := rootOf env m
  let tail :=
    if env.dialogNav root m then [Effect.isDialogMsg root]
    else [Effect.isDialogMsg root, Effect.translateMsg, Effect.dispatchMsg]
  match haccel with
  | some h =>
    if env.translateAccel root h m then [Effect.translateAccel root h]
    else Effect.translateAccel root h :: tail
  | none => tail

/-- One outcome of the blocking `GetMessage` call: a failure of the retrieval
primitive itself (the `?` at `base.rs:190`), a quit (`GetMessage` returned
`false`; the exit code sits in the message's `wParam`), or an ordinary
message.  `raised` models the first fatal error, if any, that handlers
running during that iteration's substrate calls record via
`post_quit_error`. -/
inductive GetMsgResult
  | fail (e : Err)
  | quit (code : Nat)
  | msg (m : MSG) (raised : Option Err)

/-- What `Base::run_main_loop` returns once it returns, paired with the value
the fatal-error slot holds afterwards. -/
structure LoopOut where
  result : Except Err Int
  quitErrorAfter : Option Err
deriving Repr

/-- `Base::run_main_loop` (`base.rs:184-221`) over a finite script of
`GetMessage` outcomes, threading the fatal-error slot `QUIT_ERROR`:
* retrieval failure → return the error at once (`?`), slot untouched;
* quit → `QUIT_ERROR.take()`: if the slot holds an error, return it (slot
  cleared); else return `Ok` of the quit's exit code (slot already empty);
* ordinary message → process it (see `process_message`), fold any error the
  iteration's handlers raised into the slot (first error wins), and loop.
An exhausted script means the loop is still blocked in `GetMessage`; the
result is `none` then.  The second component is the concatenated call
trace. -/
def run_main_loop (env : Env) (haccel : Option Nat) :
    Option Err → List GetMsgResult → Option LoopOut × List Effect
  | _qerr, [] => (none, [])
  | qerr, .fail e :: _ => (some ⟨.error e, qerr⟩, [])
  | qerr, .quit code :: _ =>
    match qerr with
    | some e => (some ⟨.error e, none⟩, [])
    | none => (some ⟨.ok (Int.ofNat code), none⟩, [])
  | qerr, .msg m raised :: rest =>
    let fx := process_message env haccel m
    let qerr1 := match qerr with
      | some e => some e
      | none => raised
    let (out, fx2) := run_main_loop env haccel qerr1 rest
    (out, fx ++ fx2)

/-- Sample handler used by concrete witnesses. -/
def sampleUserHandler : UserHandler := fun _ => .ok (some 1)

/-- A second sample handler, distinguishable from `sampleUserHandler` by its
return value. -/
def sampleUserHandler2 : UserHandler := fun _ => .ok (some 2)

/-- A window state whose native window already exists (`hwnd ≠ NULL`), used by
concrete witnesses. -/
def sampleBaseCreated : Base :=
  { hwnd := 5
    is_dialog := false
    parent_ptr := none
    user_events := []
    privileged_events := []
    layout_arranger := [] }

/-- An environment in which the dialog-navigation primitive consumes every
message, no accelerator consumes anything, and every window is top-level. -/
def envAllDialog : Env :=
  { ancestorRoot := fun _ => none
    translateAccel := fun _ _ _ => false
    dialogNav := fun _ _ => true }

/-- An environment in which no substrate pre-filter consumes anything. -/
def envNothingConsumes : Env :=
  { ancestorRoot := fun _ => none
    translateAccel := fun _ _ _ => false
    dialogNav := fun _ _ => false }

/-- The "is, or owns, a modal dialog" window attribute in a run of the program
with no modal dialog anywhere: constantly false.  The message loop never
consults any such attribute, so it is a free parameter of its runs. -/
def noModalDialogs : HWND → Bool := fun _ => false

/-- An environment in which the accelerator table consumes every message. -/
def envAccelConsumes : Env :=
  { ancestorRoot := fun _ => none
    translateAccel := fun _ _ _ => true
    dialogNav := fun _ _ => false }

/-- Whether an effect is an invocation of user-supplied code (a marshaled
payload or the worker callback). -/
def Effect.isInvoke : Effect → Bool
  | .invokePayload _ => true
  | .runCallback => true
  | _ => false

/-- Whether an effect is a `TranslateAccelerator` call. -/
def Effect.isAccelCall : Effect → Bool
  | .translateAccel _ _ => true
  | _ => false

/-- After `removeHeap`, the pointer no longer resolves: the payload entry is
gone. -/
theorem lookupHeap_removeHeap (h : Heap) (ptr : Nat) :
    lookupHeap (removeHeap h ptr) ptr = none := by
  have hnone : (removeHeap h ptr).find? (fun e => e.1 == ptr) = none := by
    apply List.find?_eq_none.mpr
    intro x hx
    have hmem := List.of_mem_filter hx
    simpa using hmem
  simp [lookupHeap, hnone]

/-- A freshly inserted payload resolves to itself. -/
theorem lookupHeap_insertHeap (h : Heap) (ptr : Nat) (v : Payload) :
    lookupHeap (insertHeap h ptr v) ptr = some v := by
  simp [lookupHeap, insertHeap, List.find?]

/-- C1: For every message carrying the reserved id handled by the UI-thread
handler: when the self-tag (first parameter field) equals the reserved id and
the second field is a live payload pointer, the payload is reclaimed by
exactly one `Box::from_raw` (afterwards the pointer is dead), invoked exactly
once, the handler itself returns `Ok(None)` (an error result is routed into
the fatal-error slot via `post_quit_error`, not propagated); when the
self-tag differs, the state is untouched and no effect at all — in particular
no dereference of the second field — happens. -/
theorem uiThread_payload_exactly_once (p : WndMsg) (s : St) :
    (∀ payload, p.wparam = WM_UI_THREAD →
      lookupHeap s.heap p.lparam = some payload →
      ((handle_ui_thread p s).2.1.filter
          (fun e => e == Effect.fromRaw p.lparam)).length = 1
      ∧ ((handle_ui_thread p s).2.1.filter
          (fun e => e == Effect.invokePayload p.lparam)).length = 1
      ∧ lookupHeap (handle_ui_thread p s).1.heap p.lparam = none
      ∧ (handle_ui_thread p s).2.2 = .ok none
      ∧ ∀ e, payload = .error e →
          (handle_ui_thread p s).1.quitError = some (s.quitError.getD e)
          ∧ Effect.postQuit ∈ (handle_ui_thread p s).2.1)
    ∧ (p.wparam ≠ WM_UI_THREAD →
        handle_ui_thread p s = (s, [], .ok none)) := by
  constructor
  · intro payload htag hlive
    cases payload with
    | ok u =>
      simp [handle_ui_thread, htag, hlive, lookupHeap_removeHeap,
        List.filter]
      rfl
    | error e =>
      simp [handle_ui_thread, htag, hlive, lookupHeap_removeHeap,
        post_quit_error, List.filter]
      exact ⟨rfl, rfl⟩
  · intro htag
    simp [handle_ui_thread, htag]

/-- Witness for C1: a concrete tag-matching message on a live error payload
is reclaimed (the pointer is dead afterwards) with the error recorded in the
fatal-error slot, and a concrete tag-mismatching message leaves everything
untouched. -/
theorem uiThread_payload_exactly_once_witness :
    (lookupHeap (handle_ui_thread ⟨WM_UI_THREAD, WM_UI_THREAD, 7⟩
        ⟨[(7, Except.error 3)], none⟩).1.heap 7 = none
      ∧ (handle_ui_thread ⟨WM_UI_THREAD, WM_UI_THREAD, 7⟩
          ⟨[(7, Except.error 3)], none⟩).1.quitError = some 3)
    ∧ handle_ui_thread ⟨WM_UI_THREAD, 0, 7⟩ ⟨[(7, Except.error 3)], none⟩ =
        (⟨[(7, Except.error 3)], none⟩, [], .ok none) :=
  ⟨⟨((uiThread_payload_exactly_once ⟨WM_UI_THREAD, WM_UI_THREAD, 7⟩
        ⟨[(7, Except.error 3)], none⟩).1 (Except.error 3) rfl rfl).2.2.1,
    (((uiThread_payload_exactly_once ⟨WM_UI_THREAD, WM_UI_THREAD, 7⟩
        ⟨[(7, Except.error 3)], none⟩).1 (Except.error 3) rfl rfl).2.2.2.2
      3 rfl).1⟩,
   (uiThread_payload_exactly_once ⟨WM_UI_THREAD, 0, 7⟩
      ⟨[(7, Except.error 3)], none⟩).2 (by decide)⟩

/-- C2: when the retrieval primitive reports a quit, `run_main_loop` returns
the fatal-error slot's error if one is set, else `Ok` of the quit's carried
exit code; in both cases the slot is clear afterwards (`QUIT_ERROR.take()`). -/
theorem mainLoop_quit_result (env : Env) (haccel : Option Nat)
    (qerr : Option Err) (code : Nat) (rest : List GetMsgResult) :
    run_main_loop env haccel qerr (GetMsgResult.quit code :: rest) =
      (some ⟨qerr.elim (Except.ok (Int.ofNat code)) (fun e => Except.error e),
         none⟩, []) := by
  cases qerr <;> rfl

/-- Scenario witness for C2 (no hypothesis in `mainLoop_quit_result`, recorded
for the spec's scenario): quit code 5 with no fatal error set yields
success(5). -/
theorem mainLoop_quit_result_witness :
    run_main_loop envNothingConsumes none none [GetMsgResult.quit 5] =
      (some ⟨Except.ok 5, none⟩, []) :=
  mainLoop_quit_result envNothingConsumes none none 5 []

/-- C3: per retrieved non-quit message the order is fixed.  With an
accelerator table the `TranslateAccelerator` call comes first, and if it
consumes, it is the whole iteration (in particular no generic dispatch);
without a table no accelerator call happens at all.  If the accelerator
defers (or is absent) and `IsDialogMessage` consumes, no
translate/dispatch happens.  If no pre-filter consumes, `TranslateMessage`
and `DispatchMessage` each run exactly once, in that order, at the end. -/
theorem mainLoop_step_order (env : Env) (haccel : Option Nat) (m : MSG) :
    (∀ h, haccel = some h →
      (process_message env haccel m).head? =
        some (Effect.translateAccel (rootOf env m) h)) ∧
    (haccel = none →
      (process_message env haccel m).all
        (fun e => ! Effect.isAccelCall e) = true) ∧
    (∀ h, haccel = some h → env.translateAccel (rootOf env m) h m = true →
      process_message env haccel m =
        [Effect.translateAccel (rootOf env m) h]) ∧
    ((haccel = none ∨ ∃ h, haccel = some h ∧
        env.translateAccel (rootOf env m) h m = false) →
      env.dialogNav (rootOf env m) m = true →
      Effect.isDialogMsg (rootOf env m) ∈ process_message env haccel m ∧
      (process_message env haccel m).all
        (fun e => !(e == Effect.translateMsg) && !(e == Effect.dispatchMsg))
        = true) ∧
    ((haccel = none ∨ ∃ h, haccel = some h ∧
        env.translateAccel (rootOf env m) h m = false) →
      env.dialogNav (rootOf env m) m = false →
      ((process_message env haccel m).filter
        (fun e => e == Effect.translateMsg)).length = 1 ∧
      ((process_message env haccel m).filter
        (fun e => e == Effect.dispatchMsg)).length = 1 ∧
      ∃ pre, process_message env haccel m =
        pre ++ [Effect.isDialogMsg (rootOf env m), Effect.translateMsg,
          Effect.dispatchMsg]) := by
  refine ⟨?_, ?_, ?_, ?_, ?_⟩
  · intro h hh
    subst hh
    by_cases ha : env.translateAccel (rootOf env m) h m <;>
      simp [process_message, ha]
  · intro hh
    subst hh
    by_cases hd : env.dialogNav (rootOf env m) m <;>
      simp [process_message, hd, Effect.isAccelCall]
  · intro h hh ha
    subst hh
    simp [process_message, ha]
  · rintro (hnone | ⟨h, hsome, ha⟩) hd
    · subst hnone
      simp [process_message, hd]
    · subst hsome
      simp [process_message, ha, hd]
  · rintro (hnone | ⟨h, hsome, ha⟩) hd
    · subst hnone
      have hfx : process_message env none m =
          [Effect.isDialogMsg (rootOf env m), Effect.translateMsg,
            Effect.dispatchMsg] := by
        simp [process_message, hd]
      exact ⟨by rw [hfx]; rfl, by rw [hfx]; rfl, [], by rw [hfx]; rfl⟩
    · subst hsome
      have hfx : process_message env (some h) m =
          Effect.translateAccel (rootOf env m) h ::
            [Effect.isDialogMsg (rootOf env m), Effect.translateMsg,
              Effect.dispatchMsg] := by
        simp [process_message, ha, hd]
      exact ⟨by rw [hfx]; rfl, by rw [hfx]; rfl,
        [Effect.translateAccel (rootOf env m) h], by rw [hfx]; rfl⟩

/-- Witness for C3: with a concrete consuming accelerator the whole iteration
is the accelerator call; with nothing consuming, translate and dispatch each
run exactly once. -/
theorem mainLoop_step_order_witness :
    process_message envAccelConsumes (some 4) ⟨1, 10, 0, 0⟩ =
      [Effect.translateAccel 1 4] ∧
    ((process_message envNothingConsumes none ⟨1, 10, 0, 0⟩).filter
      (fun e => e == Effect.translateMsg)).length = 1 ∧
    ((process_message envNothingConsumes none ⟨1, 10, 0, 0⟩).filter
      (fun e => e == Effect.dispatchMsg)).length = 1 :=
  ⟨(mainLoop_step_order envAccelConsumes (some 4) ⟨1, 10, 0, 0⟩).2.2.1 4
      rfl rfl,
   ((mainLoop_step_order envNothingConsumes none ⟨1, 10, 0, 0⟩).2.2.2.2
      (Or.inl rfl) rfl).1,
   ((mainLoop_step_order envNothingConsumes none ⟨1, 10, 0, 0⟩).2.2.2.2
      (Or.inl rfl) rfl).2.1⟩

/-- C4 counterexample: at a concrete input whose root owner resolves,
`run_ui_thread` emits exactly one substrate message-transfer call, and that
call is the synchronous `SendMessage` — it blocks the posting thread until
the UI thread has processed (i.e. run) the payload.  The posting call is
therefore not non-blocking as claimed: the code's own comment calls the
method "analog to SendMessage (synchronous)". -/
theorem run_ui_thread_uses_blocking_send :
    (run_ui_thread (some 1) 2 (Except.ok ()) []).2 =
      [Effect.send 1 ⟨WM_UI_THREAD, WM_UI_THREAD, 2⟩] ∧
    Effect.blocksUntilHandled (Effect.send 1 ⟨WM_UI_THREAD, WM_UI_THREAD, 2⟩)
      = true ∧
    ((run_ui_thread (some 1) 2 (Except.ok ()) []).2.all
      Effect.blocksUntilHandled) = true := by
  exact ⟨rfl, rfl, rfl⟩

/-- C4 as amended: the posting call never itself invokes the payload or the
callback (no invocation effect occurs on the posting path, and
`spawn_new_thread` returns after merely spawning the worker), but the
transfer is synchronous rather than non-blocking: every substrate call the
posting path emits is a blocking `SendMessage`. -/
theorem posting_no_self_invoke (ro : Option HWND) (ptr : Nat)
    (payload : Payload) (heap : Heap) :
    ((run_ui_thread ro ptr payload heap).2.all
      (fun e => ! Effect.isInvoke e)) = true ∧
    ((run_ui_thread ro ptr payload heap).2.all
      Effect.blocksUntilHandled) = true ∧
    ((spawn_new_thread_caller.all (fun e => ! Effect.isInvoke e)) = true ∧
      spawn_new_thread_caller = [Effect.spawnThread]) := by
  cases ro <;>
    simp [run_ui_thread, spawn_new_thread_caller, Effect.isInvoke,
      Effect.blocksUntilHandled]

/-- C5 counterexample: in a run of the program containing no modal dialog at
all (the is-or-owns-a-modal-dialog attribute is constantly false — the loop
code never consults any such attribute), a non-quit message the accelerator
did not consume still gets the `IsDialogMessage` pre-filter applied to it,
and since the pre-filter consumes it here, the loop does not proceed to
generic translate+dispatch. -/
theorem dialogNav_applied_without_modal_dialog :
    noModalDialogs (rootOf envAllDialog ⟨1, 10, 0, 0⟩) = false ∧
    process_message envAllDialog none ⟨1, 10, 0, 0⟩ =
      [Effect.isDialogMsg 1] := by
  exact ⟨rfl, rfl⟩

/-- C5 as amended: for every non-quit message the accelerator step did not
consume, the dialog keyboard-navigation pre-filter is applied
unconditionally, with the message's root ancestor as the dialog candidate —
no modal-dialog condition is checked — and the loop proceeds to generic
translate+dispatch exactly when the pre-filter does not consume the
message. -/
theorem dialogNav_filter_unconditional (env : Env) (haccel : Option Nat)
    (m : MSG)
    (hnoacc : haccel = none ∨ ∃ h, haccel = some h ∧
      env.translateAccel (rootOf env m) h m = false) :
    Effect.isDialogMsg (rootOf env m) ∈ process_message env haccel m ∧
    (Effect.dispatchMsg ∈ process_message env haccel m ↔
      env.dialogNav (rootOf env m) m = false) := by
  rcases hnoacc with hnone | ⟨h, hsome, ha⟩
  · subst hnone
    by_cases hd : env.dialogNav (rootOf env m) m <;>
      simp [process_message, hd]
  · subst hsome
    by_cases hd : env.dialogNav (rootOf env m) m <;>
      simp [process_message, ha, hd]

/-- Witness for the amended C5 at a concrete non-consuming environment:
the pre-filter call occurs and generic dispatch follows. -/
theorem dialogNav_filter_unconditional_witness :
    Effect.isDialogMsg 1 ∈ process_message envNothingConsumes none
      ⟨1, 10, 0, 0⟩ ∧
    (Effect.dispatchMsg ∈ process_message envNothingConsumes none
        ⟨1, 10, 0, 0⟩ ↔
      envNothingConsumes.dialogNav 1 ⟨1, 10, 0, 0⟩ = false) :=
  dialogNav_filter_unconditional envNothingConsumes none ⟨1, 10, 0, 0⟩
    (Or.inl rfl)

/-- Witness for the amended C4 at a concrete resolving root owner. -/
theorem posting_no_self_invoke_witness :
    ((run_ui_thread (some 1) 2 (Except.ok ()) []).2.all
      (fun e => ! Effect.isInvoke e)) = true ∧
    ((run_ui_thread (some 1) 2 (Except.ok ()) []).2.all
      Effect.blocksUntilHandled) = true :=
  ⟨(posting_no_self_invoke (some 1) 2 (Except.ok ()) []).1,
   (posting_no_self_invoke (some 1) 2 (Except.ok ()) []).2.1⟩

/-- C6: while the window exists (`hwnd ≠ NULL`) any registration through
`on`/`privileged_on` fails fast with the use-after-creation panic and
produces no modified state — both tables stay as they were; while
`hwnd = NULL` registration into either table succeeds and touches only the
intended table. -/
theorem registration_guard (b : Base) (id : Nat) (uh : UserHandler)
    (ph : PrivHandler) :
    (b.hwnd ≠ HWND.NULL →
      register_user b id uh = .error GuiPanic.useAfterCreation ∧
      register_privileged b id ph = .error GuiPanic.useAfterCreation) ∧
    (b.hwnd = HWND.NULL →
      register_user b id uh =
        .ok { b with user_events := register_overwrite b.user_events id uh } ∧
      register_privileged b id ph =
        .ok { b with privileged_events :=
          register_accumulate b.privileged_events id ph }) := by
  constructor
  · intro hne
    have hb : (b.hwnd == HWND.NULL) = false := beq_eq_false_iff_ne.mpr hne
    simp [register_user, register_privileged, Base.on, Base.privileged_on, hb]
  · intro he
    simp [register_user, register_privileged, Base.on, Base.privileged_on, he]

/-- Witness for C6: registration on a concrete created window fails with the
use-after-creation panic for both tables; on a fresh window it succeeds. -/
theorem registration_guard_witness :
    (register_user sampleBaseCreated 10 sampleUserHandler =
        .error GuiPanic.useAfterCreation ∧
      register_privileged sampleBaseCreated 10 (PrivHandler.other 0) =
        .error GuiPanic.useAfterCreation) ∧
    (register_user (Base.new false none) 10 sampleUserHandler =
        .ok { Base.new false none with
          user_events :=
            register_overwrite (Base.new false none).user_events 10
              sampleUserHandler } ∧
      register_privileged (Base.new false none) 10 (PrivHandler.other 0) =
        .ok { Base.new false none with
          privileged_events :=
            register_accumulate (Base.new false none).privileged_events 10
              (PrivHandler.other 0) }) :=
  ⟨(registration_guard sampleBaseCreated 10 sampleUserHandler
      (PrivHandler.other 0)).1 (by decide),
   (registration_guard (Base.new false none) 10 sampleUserHandler
      (PrivHandler.other 0)).2 rfl⟩

/-- C7: every cross-thread post — from `run_ui_thread` or from the worker
error path of `spawn_new_thread` — sends a message whose id is the reserved
`WM_APP + 0x3fff`, whose first parameter field carries that same id as the
self-tag, and whose second field carries the payload pointer, addressed to
the root owner the ancestor resolution produced; when the root owner cannot
be resolved, nothing is sent, and the payload is neither freed nor invoked —
it stays live in the heap (the documented leak), with no crash. -/
theorem reserved_message_contract (ro : Option HWND) (ptr : Nat)
    (payload : Payload) (heap : Heap) (roW : Option HWND)
    (r : Except Err Unit) (ptrW : Nat) (heapW : Heap) :
    WM_UI_THREAD = WM_APP + 0x3fff ∧
    (∀ t mm, Effect.send t mm ∈ (run_ui_thread ro ptr payload heap).2 →
      ro = some t ∧ mm = ⟨WM_UI_THREAD, WM_UI_THREAD, ptr⟩) ∧
    (∀ t mm, Effect.send t mm ∈ (spawn_worker_body roW r ptrW heapW).2 →
      roW = some t ∧ mm = ⟨WM_UI_THREAD, WM_UI_THREAD, ptrW⟩) ∧
    (ro = none →
      (run_ui_thread ro ptr payload heap).2 = [] ∧
      lookupHeap (run_ui_thread ro ptr payload heap).1 ptr = some payload) := by
  refine ⟨rfl, ?_, ?_, ?_⟩
  · intro t mm hmem
    cases ro with
    | none => simp [run_ui_thread] at hmem
    | some root =>
      simp [run_ui_thread] at hmem
      obtain ⟨h1, h2⟩ := hmem
      exact ⟨by rw [h1], h2⟩
  · intro t mm hmem
    cases r with
    | ok u => simp [spawn_worker_body] at hmem
    | error e =>
      cases roW with
      | none => simp [spawn_worker_body] at hmem
      | some root =>
        simp [spawn_worker_body] at hmem
        obtain ⟨h1, h2⟩ := hmem
        exact ⟨by rw [h1], h2⟩
  · intro hro
    subst hro
    exact ⟨rfl, lookupHeap_insertHeap heap ptr payload⟩

/-- Witness for C7: a resolvable root gets exactly the reserved message with
the self-tag and pointer, in both posting paths; an unresolvable root sends
nothing and leaves the concrete payload live. -/
theorem reserved_message_contract_witness :
    ((run_ui_thread none 2 (Except.ok ()) []).2 = [] ∧
      lookupHeap (run_ui_thread none 2 (Except.ok ()) []).1 2 =
        some (Except.ok ())) ∧
    ((some 1 : Option HWND) = some 1 ∧
      (⟨WM_UI_THREAD, WM_UI_THREAD, 2⟩ : WndMsg) =
        ⟨WM_UI_THREAD, WM_UI_THREAD, 2⟩) ∧
    ((some 4 : Option HWND) = some 4 ∧
      (⟨WM_UI_THREAD, WM_UI_THREAD, 3⟩ : WndMsg) =
        ⟨WM_UI_THREAD, WM_UI_THREAD, 3⟩) :=
  ⟨(reserved_message_contract none 2 (Except.ok ()) [] none (Except.ok ())
      0 []).2.2.2 rfl,
   (reserved_message_contract (some 1) 2 (Except.ok ()) [] (some 4)
      (Except.error 9) 3 []).2.1 1 ⟨WM_UI_THREAD, WM_UI_THREAD, 2⟩ (by decide),
   (reserved_message_contract (some 1) 2 (Except.ok ()) [] (some 4)
      (Except.error 9) 3 []).2.2.1 4 ⟨WM_UI_THREAD, WM_UI_THREAD, 3⟩
      (by decide)⟩

/-- C8: in the OVERWRITE user table, after any sequence of registrations the
one registered last for an id is the only handler `process_one_message`
invokes for messages with that id (the prior table contents for that id are
shadowed, and by construction at most one handler fires), and an id with no
registration reports "unhandled". -/
theorem overwrite_last_registration_wins (t : UserTable) (id : Nat)
    (h : UserHandler) (m : WndMsg) :
    (m.msg_id = id →
      process_one_message (register_overwrite t id h) m =
        (h m).map ProcessResult.handled) ∧
    (lookupTable t m.msg_id = none →
      process_one_message t m = .ok ProcessResult.notHandled) := by
  constructor
  · intro hm
    subst hm
    simp [process_one_message, register_overwrite, lookupTable, List.find?]
  · intro hl
    simp [process_one_message, hl]

/-- Witness for C8: registering two concrete handlers on the same id and
processing a message with that id runs only the second one; the empty table
reports "unhandled". -/
theorem overwrite_last_registration_wins_witness :
    process_one_message
      (register_overwrite (register_overwrite [] 5 sampleUserHandler) 5
        sampleUserHandler2) ⟨5, 0, 0⟩ =
      .ok (ProcessResult.handled (some 2)) ∧
    process_one_message [] ⟨5, 0, 0⟩ = .ok ProcessResult.notHandled :=
  ⟨(overwrite_last_registration_wins
      (register_overwrite [] 5 sampleUserHandler) 5 sampleUserHandler2
      ⟨5, 0, 0⟩).1 rfl,
   (overwrite_last_registration_wins [] 5 sampleUserHandler ⟨5, 0, 0⟩).2 rfl⟩

/-- C9: every `Base` produced by `Base::new` — dialog or not, with or without
a parent — starts with `hwnd = NULL`, an empty user table, and exactly the
two default privileged handlers, in order: the `WM_SIZE` handler, whose
semantics is to call the layout arranger's `rearrange` with the size
message's parameters, and the `WM_UI_THREAD` handler, whose semantics is
exactly the payload decode-and-run handler `handle_ui_thread`. -/
theorem base_new_two_default_handlers (d : Bool) (parent : Option Nat)
    (rr : WndMsg → Except Err Unit) (p : WndMsg) (s : St) :
    (Base.new d parent).hwnd = HWND.NULL ∧
    (Base.new d parent).user_events = [] ∧
    (Base.new d parent).privileged_events =
      [(WM_SIZE, PrivHandler.sizeRearrange),
       (WM_UI_THREAD, PrivHandler.uiThreadDecode)] ∧
    runPrivHandler rr PrivHandler.sizeRearrange p s =
      (s, [Effect.rearrange p], (rr p).map (fun _ => none)) ∧
    runPrivHandler rr PrivHandler.uiThreadDecode p s = handle_ui_thread p s :=
  ⟨rfl, rfl, rfl, rfl, rfl⟩

/-- C10: the worker body spawned by `spawn_new_thread` starts by invoking the
supplied callback (exactly once, and the spawning thread's own trace never
invokes it); a callback returning success sends nothing to the UI thread and
leaves the heap alone; a callback returning an error is the only case in
which the reserved message is sent — to the resolved root owner, carrying a
payload that re-raises that error. -/
theorem spawn_worker_contract (ro : Option HWND) (r : Except Err Unit)
    (ptr : Nat) (heap : Heap) :
    (spawn_worker_body ro r ptr heap).2.head? = some Effect.runCallback ∧
    ((spawn_worker_body ro r ptr heap).2.filter
      (fun e => e == Effect.runCallback)).length = 1 ∧
    (spawn_new_thread_caller.all (fun e => !(e == Effect.runCallback)))
      = true ∧
    (r = .ok () → spawn_worker_body ro r ptr heap =
      (heap, [Effect.runCallback])) ∧
    (∀ t mm, Effect.send t mm ∈ (spawn_worker_body ro r ptr heap).2 →
      ∃ e, r = .error e ∧ ro = some t ∧
        mm = ⟨WM_UI_THREAD, WM_UI_THREAD, ptr⟩) ∧
    (∀ e root, r = .error e → ro = some root →
      Effect.send root ⟨WM_UI_THREAD, WM_UI_THREAD, ptr⟩ ∈
        (spawn_worker_body ro r ptr heap).2 ∧
      lookupHeap (spawn_worker_body ro r ptr heap).1 ptr =
        some (Except.error e)) := by
  refine ⟨?_, ?_, rfl, ?_, ?_, ?_⟩
  · cases r with
    | ok u => rfl
    | error e => cases ro <;> rfl
  · cases r with
    | ok u => rfl
    | error e => cases ro <;> rfl
  · intro hr
    subst hr
    rfl
  · intro t mm hmem
    cases r with
    | ok u => simp [spawn_worker_body] at hmem
    | error e =>
      cases ro with
      | none => simp [spawn_worker_body] at hmem
      | some root =>
        simp [spawn_worker_body] at hmem
        obtain ⟨h1, h2⟩ := hmem
        exact ⟨e, rfl, by rw [h1], h2⟩
  · intro e root hr hro
    subst hr
    subst hro
    exact ⟨by simp [spawn_worker_body],
      by simpa [spawn_worker_body] using
        lookupHeap_insertHeap heap ptr (Except.error e)⟩

/-- Witness for C10: a concrete successful callback produces only the
callback invocation; a concrete failing callback sends the reserved message
to the root owner with the re-raising payload stored. -/
theorem spawn_worker_contract_witness :
    spawn_worker_body (some 1) (Except.ok ()) 3 [] =
      ([], [Effect.runCallback]) ∧
    (Effect.send 1 ⟨WM_UI_THREAD, WM_UI_THREAD, 3⟩ ∈
      (spawn_worker_body (some 1) (Except.error 9) 3 []).2 ∧
     lookupHeap (spawn_worker_body (some 1) (Except.error 9) 3 []).1 3 =
       some (Except.error 9)) ∧
    (∃ e, (Except.error 9 : Except Err Unit) = .error e ∧
      (some 1 : Option HWND) = some 1 ∧
      (⟨WM_UI_THREAD, WM_UI_THREAD, 3⟩ : WndMsg) =
        ⟨WM_UI_THREAD, WM_UI_THREAD, 3⟩) :=
  ⟨(spawn_worker_contract (some 1) (Except.ok ()) 3 []).2.2.2.1 rfl,
   (spawn_worker_contract (some 1) (Except.error 9) 3 []).2.2.2.2.2 9 1
      rfl rfl,
   (spawn_worker_contract (some 1) (Except.error 9) 3 []).2.2.2.2.1 1
      ⟨WM_UI_THREAD, WM_UI_THREAD, 3⟩ (by decide)⟩
